import Mathlib

/-!
Shallow embedding of the espresso contribution validator
(`utils/build_package/validate.py`).

The validator is a pytest suite: `all_contribs` enumerates the entries of
the `contrib` folder, the `pre_build` fixture parses the command line, and
`test_contrib` runs checks 1-8 for one contribution, short-circuiting on
the first failing assertion.  Python exceptions and failed assertions both
abort the test, so the embedding collapses them to a failing outcome; what
must stay observable is the trace of `set_example_number` calls made by
the example-count cross-check (check 7) and the number of `sys.path`
insertions (check 3), so `test_contrib` returns those alongside pass/fail.
-/

namespace Espresso

/-- A runtime value returned by a contribution function, abstracted to the
two attributes the validator inspects: its numpy dimensionality
(`np.ndim`) and whether it is a `matplotlib.figure.Figure` instance. -/
structure Value where
  ndim : Nat
  isFigure : Bool
deriving DecidableEq, Repr

/-- Outcome of calling a contribution function in Python: a returned value,
a raised `NotImplementedError`, or any other raised exception. -/
inductive Outcome where
  | ok (v : Value)
  | notImpl
  | raises
deriving DecidableEq, Repr

/-- Outcome of `forward(model, with_jacobian=True)` followed by the tuple
unpacking `_synthetics, _jacobian = ...` inside the same `try`: a pair of
values, a raised `NotImplementedError`, or any other exception (including
the unpacking failure when the result is not a pair). -/
inductive PairOutcome where
  | ok (a b : Value)
  | notImpl
  | raises
deriving DecidableEq, Repr

/-- The behaviour of a loaded contribution module, as observed by the
validator: its `__all__` list and the behaviour of the seven standard
functions.  `set_example_number i = true` means the call returns normally,
`false` means it raises. -/
structure ContribModule where
  all : List String
  set_example_number : Int → Bool
  suggested_model : Outcome
  data : Outcome
  forward : Value → Outcome
  forward_with_jacobian : Value → PairOutcome
  jacobian : Value → Outcome
  plot_model : Value → Outcome
  plot_data : Value → Outcome

/-- A parsed YAML value, restricted to what the schema check can observe.
Scalars are split into strings (which support Python `in` as substring
test) and other scalars such as numbers, booleans and null (on which `in`
and `len` raise `TypeError`). -/
inductive YValue where
  | str (s : String)
  | other
  | map (entries : List (String × YValue))
  | seq (items : List YValue)

/-- Python `k in y`: key membership on a dict, element membership on a
list, substring test on a string; `none` models the `TypeError` raised on
other scalars. -/
def yIn (k : String) (y : YValue) : Option Bool :=
  match y with
  | .str s => some (k.isEmpty || (s.splitOn k).length != 1)
  | .other => none
  | .map es => some (es.any (fun p => p.1 == k))
  | .seq items => some (items.any (fun v => match v with | .str s => s == k | _ => false))

/-- Python `y[k]` for a string key: dict lookup; `none` models the
`TypeError`/`KeyError` raised on anything else (subscripting a list or a
scalar with a string, or a missing key). -/
def yGetKey (y : YValue) (k : String) : Option YValue :=
  match y with
  | .map es => List.lookup k es
  | _ => none

/-- Python `len(y)`: `none` models the `TypeError` raised on non-sized
scalars. -/
def yLen (y : YValue) : Option Nat :=
  match y with
  | .str s => some s.length
  | .other => none
  | .map es => some es.length
  | .seq items => some items.length

/-- Python iteration `for x in y`: the items of a list, the keys of a
dict, the one-character strings of a string; `none` models the `TypeError`
raised on other scalars. -/
def yIter (y : YValue) : Option (List YValue) :=
  match y with
  | .str s => some (s.toList.map (fun c => .str (String.singleton c)))
  | .other => none
  | .map es => some (es.map (fun p => .str p.1))
  | .seq items => some items

/-- `assert k in y` as executed by the schema check: passes only when the
membership test runs without `TypeError` and yields `True`. -/
def pyAssertIn (k : String) (y : YValue) : Bool :=
  match yIn k y with
  | some true => true
  | _ => false

/-- A directory entry of the contributions root, as seen by `os.listdir`
(which returns files and subfolders alike); `isDir` records whether the
entry is a subfolder. -/
structure DirEntry where
  name : String
  isDir : Bool
deriving DecidableEq, Repr

def MODULE_NAME : String := "cofi-espresso"

def CONTRIB_FOLDER : String := "contrib"

/-- `get_folder_content`: `os.listdir` gives the names of all entries of
the folder (files and subfolders alike); paths prepend the folder name. -/
def get_folder_content (folder_name : String) (entries : List DirEntry) :
    List String × List String :=
  let names := entries.map (fun e => e.name)
  (names, names.map (fun n => folder_name ++ "/" ++ n))

/-- `all_contribs`: `list(zip(*get_folder_content(CONTRIB_FOLDER)))`. -/
def all_contribs (entries : List DirEntry) : List (String × String) :=
  (get_folder_content CONTRIB_FOLDER entries).1.zip
    (get_folder_content CONTRIB_FOLDER entries).2

/-- The `pre_build` fixture: `pre_post` defaults to `"pre"`; with more
than one command-line argument it becomes `sys.argv[-1]` and anything
other than `"pre"`/`"post"` raises `ValueError` (`Except.error`).  The
returned `Bool` is `pre_post == "pre"`. -/
def pre_build (argv : List String) : Except Unit Bool :=
  if argv.length > 1 then
    let pre_post := argv.getLastD ""
    if pre_post == "pre" || pre_post == "post" then Except.ok (pre_post == "pre")
    else Except.error ()
  else Except.ok true

/-- `_array_like(obj)`: `np.ndim(obj) != 0`. -/
def _array_like (v : Value) : Bool :=
  v.ndim != 0

/-- The input of one `test_contrib` run: the contribution's name, the
names listed in its subfolder, whether importing its module succeeds (in
the selected mode), the imported module's behaviour, the result of
parsing `metadata.yml` (`none` when `yaml.safe_load` raises), and
`os.stat(...).st_size` of the `LICENCE` file. -/
structure ContribInput where
  name : String
  folderEntries : List String
  importOk : Bool
  contribMod : ContribModule
  metadata : Option YValue
  licenceSize : Nat

/-- The observable result of one `test_contrib` run: whether every
assertion passed, the arguments of the `set_example_number` calls made by
the check-7 cross-check loop, and how many `sys.path.insert` mutations
were performed. -/
structure TestResult where
  passed : Bool
  crossCheckCalls : List Int
  pathInserts : Nat
deriving DecidableEq, Repr

def required_files : List String :=
  ["README.md", "LICENCE", "metadata.yml", "__init__.py"]

def std_funcs : List String :=
  ["set_example_number", "suggested_model", "data", "forward",
   "jacobian", "plot_model", "plot_data"]

/-- Check 1: `assert f"{contrib_name}.py" in names`. -/
def step1 (c : ContribInput) : Bool :=
  c.folderEntries.contains (c.name ++ ".py")

/-- Check 2: each of the four required files is in the folder listing. -/
def step2 (c : ContribInput) : Bool :=
  required_files.all (fun f => c.folderEntries.contains f)

/-- Check 3 (after the import): `for fun in std_funcs: assert fun in
contrib_mod.__all__`. -/
def step3 (m : ContribModule) : Bool :=
  std_funcs.all (fun f => m.all.contains f)

/-- Check 4: `set_example_number(0)`, then `suggested_model()`, `data()`
and `forward(_model)` — none wrapped in `try`, so any exception fails —
then the three `_array_like` assertions.  Returns the model and data
values for use by check 5, or `none` on failure. -/
def step4 (m : ContribModule) : Option (Value × Value) :=
  if m.set_example_number 0 then
    match m.suggested_model with
    | .ok _model =>
      match m.data with
      | .ok _data =>
        match m.forward _model with
        | .ok _synthetics =>
          if _array_like _model && _array_like _data && _array_like _synthetics then
            some (_model, _data)
          else none
        | _ => none
      | _ => none
    | _ => none
  else none

/-- Check 5, probe 1: `try: _synthetics, _jacobian = forward(_model,
with_jacobian=True)` — `NotImplementedError` is swallowed, any other
exception fails, a returned pair must be two array-likes. -/
def probe_forward_with_jacobian (m : ContribModule) (_model : Value) : Bool :=
  match m.forward_with_jacobian _model with
  | .ok a b => _array_like a && _array_like b
  | .notImpl => true
  | .raises => false

/-- Check 5, probe 2: `jacobian(_model)` under the same rule, with an
array-like result required when implemented. -/
def probe_jacobian (m : ContribModule) (_model : Value) : Bool :=
  match m.jacobian _model with
  | .ok j => _array_like j
  | .notImpl => true
  | .raises => false

/-- Check 5, probe 3: `plot_model(_model)`; a returned value must be a
`Figure` instance. -/
def probe_plot_model (m : ContribModule) (_model : Value) : Bool :=
  match m.plot_model _model with
  | .ok f => f.isFigure
  | .notImpl => true
  | .raises => false

/-- Check 5, probe 4: `plot_data(_data)`; a returned value must be a
`Figure` instance. -/
def probe_plot_data (m : ContribModule) (_data : Value) : Bool :=
  match m.plot_data _data with
  | .ok f => f.isFigure
  | .notImpl => true
  | .raises => false

/-- Check 5: the four optional probes in source order. -/
def step5 (m : ContribModule) (_model _data : Value) : Bool :=
  probe_forward_with_jacobian m _model && probe_jacobian m _model &&
    probe_plot_model m _model && probe_plot_data m _data

/-- Schema check on one element of `meta_data["examples"]`: the three
`assert "<key>" in example` statements. -/
def checkExample (ex : YValue) : Bool :=
  pyAssertIn "description" ex && pyAssertIn "model_dimension" ex &&
    pyAssertIn "data_dimension" ex

/-- `if "citation" in meta_data: assert "doi" in meta_data["citation"]`. -/
def checkCitation (meta : YValue) : Bool :=
  match yIn "citation" meta with
  | some true =>
    match yGetKey meta "citation" with
    | some cit => pyAssertIn "doi" cit
    | none => false
  | some false => true
  | none => false

/-- `if "contacts" in meta_data: for contact in meta_data["contacts"]:
assert "name" in contact; assert "email" in contact`. -/
def checkContacts (meta : YValue) : Bool :=
  match yIn "contacts" meta with
  | some true =>
    match yGetKey meta "contacts" with
    | some cs =>
      match yIter cs with
      | some items => items.all (fun c => pyAssertIn "name" c && pyAssertIn "email" c)
      | none => false
    | none => false
  | some false => true
  | none => false

/-- `if "extra_websites" in meta_data: for website in
meta_data["extra_websites"]: assert "name" in website; assert "link" in
website`. -/
def checkWebsites (meta : YValue) : Bool :=
  match yIn "extra_websites" meta with
  | some true =>
    match yGetKey meta "extra_websites" with
    | some ws =>
      match yIter ws with
      | some items => items.all (fun w => pyAssertIn "name" w && pyAssertIn "link" w)
      | none => false
    | none => false
  | some false => true
  | none => false

/-- Check 6 after the YAML parse: the four required top-level keys,
`n_examples = len(meta_data["examples"])`, the per-example sub-key
asserts, then the optional sections.  Returns `n_examples` on success,
`none` on any failed assertion or raised `TypeError`. -/
def schemaCheck (meta : YValue) : Option Nat :=
  if pyAssertIn "name" meta && pyAssertIn "short_description" meta &&
      pyAssertIn "authors" meta && pyAssertIn "examples" meta then
    match yGetKey meta "examples" with
    | some exs =>
      match yLen exs with
      | some n_examples =>
        match yIter exs with
        | some items =>
          if items.all checkExample && checkCitation meta &&
              checkContacts meta && checkWebsites meta then
            some n_examples
          else none
        | none => none
      | none => none
    | none => none
  else none

/-- Run `f` on each element of the list in order, stopping at the first
call that raises (`f i = false`); returns the arguments actually passed
(the raising one included) and whether all calls succeeded. -/
def runLoop (f : Int → Bool) : List Int → List Int × Bool
  | [] => ([], true)
  | i :: rest =>
    if f i then
      let r := runLoop f rest
      (i :: r.1, r.2)
    else ([i], false)

/-- Check 7: `for i in range(n_examples): contrib_mod.set_example_number(i)`. -/
def crossCheck (m : ContribModule) (n_examples : Nat) : List Int × Bool :=
  runLoop m.set_example_number ((List.range n_examples).map Int.ofNat)

/-- Checks 3-8, run after the module import succeeded: export list,
required functions, optional probes, metadata parse and schema, the
example-count cross-check, and the non-empty LICENCE check.  Returns
pass/fail and the cross-check call trace. -/
def checksAfterImport (c : ContribInput) : Bool × List Int :=
  if step3 c.contribMod then
    match step4 c.contribMod with
    | some (_model, _data) =>
      if step5 c.contribMod _model _data then
        match c.metadata with
        | some meta =>
          match schemaCheck meta with
          | some n_examples =>
            let r := crossCheck c.contribMod n_examples
            (r.2 && (c.licenceSize != 0), r.1)
          | none => (false, [])
        | none => (false, [])
      else (false, [])
    | none => (false, [])
  else (false, [])

/-- `test_contrib`: checks 1 and 2 on the folder listing, then the module
load — in pre-build mode `sys.path.insert(1, CONTRIB_FOLDER)` runs before
the import, so the path mutation happens whenever checks 1-2 passed, even
if the import then fails — then checks 3-8. -/
def test_contrib (pre : Bool) (c : ContribInput) : TestResult :=
  if step1 c && step2 c then
    let inserts := if pre then 1 else 0
    if c.importOk then
      let r := checksAfterImport c
      ⟨r.1, r.2, inserts⟩
    else ⟨false, [], inserts⟩
  else ⟨false, [], 0⟩

/-- One whole validator run: the `pre_build` fixture either raises the
configuration error (then no contribution's test body runs) or selects
the mode, and `test_contrib` runs once per discovered contribution. -/
def runValidator (argv : List String) (contribs : List ContribInput) :
    Except Unit (List TestResult) :=
  match pre_build argv with
  | .error e => .error e
  | .ok pre => .ok (contribs.map (test_contrib pre))

/-- Total number of `sys.path.insert` mutations performed by a run. -/
def totalInserts : Except Unit (List TestResult) → Nat
  | .error _ => 0
  | .ok rs => (rs.map (fun r => r.pathInserts)).sum

/-- A conforming sample module: `__all__` lists the seven standard names,
`set_example_number` always succeeds, the three required functions return
1-dimensional values, and every optional function raises
`NotImplementedError`. -/
def okModule : ContribModule :=
  ⟨std_funcs, fun _ => true, .ok ⟨1, false⟩, .ok ⟨1, false⟩,
   fun _ => .ok ⟨1, false⟩, fun _ => .notImpl, fun _ => .notImpl,
   fun _ => .notImpl, fun _ => .notImpl⟩

/-- A metadata document with the three scalar required keys and an empty
`examples` sequence, no optional sections. -/
def goodMeta : YValue :=
  .map [("name", .str "Gravity Density"), ("short_description", .str "grav"),
        ("authors", .seq [.str "A. Author"]), ("examples", .seq [])]

/-- A metadata document whose single example record lacks
`model_dimension`. -/
def badMeta : YValue :=
  .map [("name", .str "Gravity Density"), ("short_description", .str "grav"),
        ("authors", .seq [.str "A. Author"]),
        ("examples", .seq [.map [("description", .str "ex1"),
                                 ("data_dimension", .str "1")]])]

/-- A contribution with a complete folder, a conforming module and
`badMeta` as parsed metadata. -/
def badMetaContrib : ContribInput :=
  ⟨"gravity_density",
   ["gravity_density.py", "README.md", "LICENCE", "metadata.yml", "__init__.py"],
   true, okModule, some badMeta, 11⟩

/-- A contribution whose folder checks pass but whose module import
raises. -/
def failImportContrib : ContribInput :=
  ⟨"gravity_density",
   ["gravity_density.py", "README.md", "LICENCE", "metadata.yml", "__init__.py"],
   false, okModule, none, 11⟩

/-- A fully conforming contribution with an empty LICENCE file. -/
def emptyLicenceContrib : ContribInput :=
  ⟨"gravity_density",
   ["gravity_density.py", "README.md", "LICENCE", "metadata.yml", "__init__.py"],
   true, okModule, some goodMeta, 0⟩

theorem test_contrib_passed (pre : Bool) (c : ContribInput) :
    (test_contrib pre c).passed =
      ((step1 c && step2 c) && c.importOk && (checksAfterImport c).1) := by
  unfold test_contrib
  repeat' split <;> simp_all

theorem test_contrib_calls (pre : Bool) (c : ContribInput) :
    (test_contrib pre c).crossCheckCalls =
      if (step1 c && step2 c) && c.importOk then (checksAfterImport c).2 else [] := by
  unfold test_contrib
  repeat' split <;> simp_all

theorem test_contrib_pathInserts (pre : Bool) (c : ContribInput) :
    (test_contrib pre c).pathInserts =
      if step1 c && step2 c then (if pre then 1 else 0) else 0 := by
  unfold test_contrib
  repeat' split <;> simp_all

theorem checksAfterImport_fst_iff (c : ContribInput) :
    (checksAfterImport c).1 = true ↔
      step3 c.contribMod = true ∧
      (∃ mdl dat, step4 c.contribMod = some (mdl, dat) ∧
        step5 c.contribMod mdl dat = true) ∧
      (∃ meta n_examples, c.metadata = some meta ∧
        schemaCheck meta = some n_examples ∧
        (crossCheck c.contribMod n_examples).2 = true) ∧
      c.licenceSize ≠ 0 := by
  unfold checksAfterImport
  repeat' split
  all_goals try (simp_all ; done)
  all_goals simp_all
  all_goals tauto

theorem checksAfterImport_snd (c : ContribInput) :
    (checksAfterImport c).2 = [] ∨
    ∃ meta n_examples, c.metadata = some meta ∧
      schemaCheck meta = some n_examples ∧
      (checksAfterImport c).2 = (crossCheck c.contribMod n_examples).1 := by
  unfold checksAfterImport
  repeat' split
  all_goals try (left ; rfl)
  rename_i h3 x4 mdl dat h4 h5 xm meta hm xn n hn
  exact Or.inr ⟨meta, n, hm, hn, rfl⟩

/-- C4: the export-list check (check 3) passes if and only if `__all__`
contains all seven standard names, i.e. is a superset of them; any
missing name fails the check. -/
theorem C4_export_list (m : ContribModule) :
    step3 m = true ↔
      ("set_example_number" ∈ m.all ∧ "suggested_model" ∈ m.all ∧
       "data" ∈ m.all ∧ "forward" ∈ m.all ∧ "jacobian" ∈ m.all ∧
       "plot_model" ∈ m.all ∧ "plot_data" ∈ m.all) := by
  simp [step3, std_funcs, List.elem_iff]

/-- Witness for C4 at a module whose export list is exactly the seven
standard names. -/
theorem C4_export_list_witness :
    step3 ⟨std_funcs, fun _ => true, .raises, .raises, fun _ => .raises,
      fun _ => .raises, fun _ => .raises, fun _ => .raises, fun _ => .raises⟩ = true :=
  (C4_export_list _).mpr (by simp [std_funcs])

/-- C1: when `suggested_model()`, `data()` and `forward(model)` return
values (rather than raise), the required-function check (check 4) gets
past the `_array_like` assertions iff all three returned values are
array-like — and when it fails, the whole `test_contrib` run fails. -/
theorem C1_required_array_like (m : ContribModule) (mdl dat syn : Value)
    (h1 : m.suggested_model = .ok mdl) (h2 : m.data = .ok dat)
    (h3 : m.forward mdl = .ok syn) :
    ((step4 m).isSome = true ↔
      (m.set_example_number 0 = true ∧ _array_like mdl = true ∧
       _array_like dat = true ∧ _array_like syn = true)) ∧
    (∀ (pre : Bool) (c : ContribInput), c.contribMod = m →
      step4 m = none → (test_contrib pre c).passed = false) := by
  constructor
  · simp only [step4, h1, h2, h3]
    cases hs : m.set_example_number 0 <;>
      cases ha : _array_like mdl <;>
      cases hb : _array_like dat <;>
      cases hc : _array_like syn <;>
      simp [hs, ha, hb, hc]
  · intro pre c hc h4
    rw [test_contrib_passed]
    rcases hp : (test_contrib pre c).passed with _ | _
    · simp_all [test_contrib_passed]
    · have := (checksAfterImport_fst_iff c).mp (by simp_all [test_contrib_passed])
      rcases this.2.1 with ⟨a, b, hab, _⟩
      rw [hc, h4] at hab
      exact absurd hab (by simp)

/-- Witness for C1 at `okModule`, whose required functions return
1-dimensional values: check 4 passes. -/
theorem C1_required_array_like_witness :
    (step4 okModule).isSome = true :=
  ((C1_required_array_like okModule ⟨1, false⟩ ⟨1, false⟩ ⟨1, false⟩
    rfl rfl rfl).1).mpr ⟨rfl, rfl, rfl, rfl⟩

/-- C2: the optional-function check (check 5) passes iff each of the four
probes either raised `NotImplementedError` or returned a value satisfying
its type contract: a pair of array-likes for
`forward(model, with_jacobian=True)`, an array-like for
`jacobian(model)`, and a `Figure` instance for `plot_model(model)` and
`plot_data(data)`.  Any other outcome (any other exception, or a returned
value violating the contract) fails the check. -/
theorem C2_optional_probes (m : ContribModule) (mdl dat : Value) :
    step5 m mdl dat = true ↔
      ((m.forward_with_jacobian mdl = .notImpl ∨
        ∃ a b, m.forward_with_jacobian mdl = .ok a b ∧
          _array_like a = true ∧ _array_like b = true) ∧
       (m.jacobian mdl = .notImpl ∨
        ∃ j, m.jacobian mdl = .ok j ∧ _array_like j = true) ∧
       (m.plot_model mdl = .notImpl ∨
        ∃ f, m.plot_model mdl = .ok f ∧ f.isFigure = true) ∧
       (m.plot_data dat = .notImpl ∨
        ∃ f, m.plot_data dat = .ok f ∧ f.isFigure = true)) := by
  unfold step5 probe_forward_with_jacobian probe_jacobian
    probe_plot_model probe_plot_data
  cases hf : m.forward_with_jacobian mdl <;>
    cases hj : m.jacobian mdl <;>
    cases hm : m.plot_model mdl <;>
    cases hd : m.plot_data dat <;>
    simp [hf, hj, hm, hd, and_assoc]

/-- Witness for C2 at `okModule`, whose optional functions all raise
`NotImplementedError`: check 5 passes. -/
theorem C2_optional_probes_witness :
    step5 okModule ⟨1, false⟩ ⟨1, false⟩ = true :=
  (C2_optional_probes okModule ⟨1, false⟩ ⟨1, false⟩).mpr
    ⟨Or.inl rfl, Or.inl rfl, Or.inl rfl, Or.inl rfl⟩

theorem runLoop_prefix (f : Int → Bool) (l : List Int) :
    (runLoop f l).1 <+: l := by
  induction l with
  | nil => simp [runLoop]
  | cons i t ih =>
    unfold runLoop
    by_cases h : f i = true
    · rcases ih with ⟨s, hs⟩
      simp only [h]
      exact ⟨s, by simp [hs]⟩
    · simp only [h]
      exact ⟨t, by simp⟩

theorem runLoop_all (f : Int → Bool) (l : List Int)
    (h : ∀ i ∈ l, f i = true) : runLoop f l = (l, true) := by
  induction l with
  | nil => rfl
  | cons i t ih =>
    have hi : f i = true := h i (by simp)
    unfold runLoop
    simp [hi, ih (fun j hj => h j (by simp [hj]))]

/-- C3: the example-count cross-check (check 7) iterates
`set_example_number` over exactly `range(n_examples)`: its call trace is
always an initial segment `[0, ..., k-1]` with `k ≤ n` (so calls are in
increasing order, confined to `[0, n)`, and never made for `i = n`); when
every call in the range succeeds the trace is exactly `[0, ..., n-1]`;
and when any of the calls raises, the contribution's validation fails. -/
theorem C3_cross_check (m : ContribModule) (n : Nat) :
    (∃ k, k ≤ n ∧ (crossCheck m n).1 = (List.range k).map Int.ofNat) ∧
    ((∀ i : Nat, i < n → m.set_example_number (Int.ofNat i) = true) →
      crossCheck m n = ((List.range n).map Int.ofNat, true)) ∧
    (∀ (pre : Bool) (c : ContribInput) (meta : YValue), c.contribMod = m →
      c.metadata = some meta → schemaCheck meta = some n →
      (crossCheck m n).2 = false → (test_contrib pre c).passed = false) := by
  refine ⟨?_, ?_, ?_⟩
  · have hpre := runLoop_prefix m.set_example_number ((List.range n).map Int.ofNat)
    rw [List.prefix_iff_eq_take] at hpre
    refine ⟨min ((crossCheck m n).1.length) n, Nat.min_le_right _ _, ?_⟩
    calc (crossCheck m n).1
        = List.take ((crossCheck m n).1.length) ((List.range n).map Int.ofNat) := hpre
      _ = (List.range (min ((crossCheck m n).1.length) n)).map Int.ofNat := by
          rw [← List.map_take, List.take_range]
  · intro h
    refine runLoop_all _ _ ?_
    intro i hi
    rcases List.mem_map.mp hi with ⟨j, hj, rfl⟩
    exact h j (List.mem_range.mp hj)
  · intro pre c meta hcm hmeta hschema hfail
    rcases hp : (test_contrib pre c).passed with _ | _
    · rfl
    · exfalso
      have ht := test_contrib_passed pre c
      rw [hp] at ht
      have hfst : (checksAfterImport c).1 = true := by simp_all
      rcases ((checksAfterImport_fst_iff c).mp hfst).2.2.1 with
        ⟨meta', n', hmeta', hschema', hcross⟩
      rw [hmeta] at hmeta'
      cases hmeta'
      rw [hschema] at hschema'
      cases hschema'
      rw [hcm] at hcross
      rw [hcross] at hfail
      exact Bool.noConfusion hfail

/-- Witness for C3 at `okModule` (whose `set_example_number` never
raises) with two declared examples: the cross-check calls are exactly
`[0, 1]` and all succeed. -/
theorem C3_cross_check_witness : crossCheck okModule 2 = ([0, 1], true) :=
  ((C3_cross_check okModule 2).2.1 (fun _ _ => rfl)).trans (by decide)

/-- C5: when the metadata document parses but some example record lacks
one of the three required sub-keys, the schema check (check 6) fails, the
contribution fails validation, and the check-7 cross-check makes no
`set_example_number` call at all. -/
theorem C5_schema_failure_blocks_cross_check (pre : Bool) (c : ContribInput)
    (meta exs ex : YValue) (items : List YValue)
    (hmeta : c.metadata = some meta)
    (hexs : yGetKey meta "examples" = some exs)
    (hitems : yIter exs = some items)
    (hex : ex ∈ items)
    (hmissing : pyAssertIn "description" ex = false ∨
      pyAssertIn "model_dimension" ex = false ∨
      pyAssertIn "data_dimension" ex = false) :
    schemaCheck meta = none ∧ (test_contrib pre c).passed = false ∧
    (test_contrib pre c).crossCheckCalls = [] := by
  have hcex : checkExample ex = false := by
    unfold checkExample
    rcases hmissing with h | h | h <;> simp [h]
  have hall : items.all checkExample = false := by
    rw [List.all_eq_false]
    exact ⟨ex, hex, by simp [hcex]⟩
  have hschema : schemaCheck meta = none := by
    unfold schemaCheck
    split
    · simp only [hexs]
      cases exs <;> simp_all [yLen, yIter]
    · rfl
  refine ⟨hschema, ?_, ?_⟩
  · rcases hp : (test_contrib pre c).passed with _ | _
    · rfl
    · exfalso
      have ht := test_contrib_passed pre c
      rw [hp] at ht
      have hfst : (checksAfterImport c).1 = true := by simp_all
      rcases ((checksAfterImport_fst_iff c).mp hfst).2.2.1 with
        ⟨meta', n', hmeta', hschema', _⟩
      rw [hmeta] at hmeta'
      cases hmeta'
      rw [hschema] at hschema'
      exact Option.noConfusion hschema'
  · rw [test_contrib_calls]
    rcases checksAfterImport_snd c with hsnd | ⟨meta', n', hmeta', hschema', _⟩
    · rw [hsnd]
      simp
    · rw [hmeta] at hmeta'
      cases hmeta'
      rw [hschema] at hschema'
      exact Option.noConfusion hschema'

/-- C9: a contribution whose LICENCE file has size 0 never passes
validation, whatever the other checks do; passing requires a non-empty
LICENCE. -/
theorem C9_licence_nonempty (pre : Bool) (c : ContribInput)
    (h : c.licenceSize = 0) : (test_contrib pre c).passed = false := by
  rcases hp : (test_contrib pre c).passed with _ | _
  · rfl
  · exfalso
    have ht := test_contrib_passed pre c
    rw [hp] at ht
    have hfst : (checksAfterImport c).1 = true := by simp_all
    exact ((checksAfterImport_fst_iff c).mp hfst).2.2.2 h

theorem lookup_any_key (k : String) (es : List (String × YValue)) (v : YValue)
    (h : List.lookup k es = some v) : es.any (fun p => p.1 == k) = true := by
  induction es with
  | nil => simp [List.lookup] at h
  | cons e t ih =>
    rw [List.lookup] at h
    by_cases hk : k == e.1
    · simp [beq_iff_eq.mp hk]
    · have hk' : (k == e.1) = false := by simpa using hk
      rw [hk'] at h
      simp [ih h]

/-- Witness for C5 at `badMetaContrib`: the schema check fails and the
cross-check loop makes no call. -/
theorem C5_schema_failure_witness :
    schemaCheck badMeta = none ∧
    (test_contrib true badMetaContrib).passed = false ∧
    (test_contrib true badMetaContrib).crossCheckCalls = [] :=
  C5_schema_failure_blocks_cross_check true badMetaContrib badMeta
    (.seq [.map [("description", .str "ex1"), ("data_dimension", .str "1")]])
    (.map [("description", .str "ex1"), ("data_dimension", .str "1")])
    [.map [("description", .str "ex1"), ("data_dimension", .str "1")]]
    rfl rfl rfl (by simp) (Or.inr (Or.inl (by decide)))

/-- Witness for C9 at `emptyLicenceContrib`. -/
theorem C9_licence_nonempty_witness :
    (test_contrib true emptyLicenceContrib).passed = false :=
  C9_licence_nonempty true emptyLicenceContrib rfl

/-- C10: a parsed metadata mapping whose `examples` key holds an empty
sequence passes the schema check (given the other required keys and
well-formed optional sections), reporting zero examples, and a
zero-example cross-check performs no `set_example_number` call. -/
theorem C10_empty_examples (meta : YValue) (es : List (String × YValue))
    (hm : meta = .map es)
    (h1 : pyAssertIn "name" meta = true)
    (h2 : pyAssertIn "short_description" meta = true)
    (h3 : pyAssertIn "authors" meta = true)
    (hex : yGetKey meta "examples" = some (.seq []))
    (hcit : checkCitation meta = true)
    (hcon : checkContacts meta = true)
    (hweb : checkWebsites meta = true) :
    schemaCheck meta = some 0 ∧
    (∀ m : ContribModule, crossCheck m 0 = ([], true)) := by
  have h4 : pyAssertIn "examples" meta = true := by
    subst hm
    have := lookup_any_key "examples" es _ hex
    simp [pyAssertIn, yIn, this]
  constructor
  · unfold schemaCheck
    simp [h1, h2, h3, h4, hex, yLen, yIter, hcit, hcon, hweb]
  · intro m
    simp [crossCheck, runLoop]

/-- Witness for C10 at `goodMeta`. -/
theorem C10_empty_examples_witness : schemaCheck goodMeta = some 0 :=
  (C10_empty_examples goodMeta _ rfl (by decide) (by decide) (by decide) rfl
    (by decide) (by decide) (by decide)).1

/-- C6 counterexample: a plain file directly under the contributions root
is treated as a contribution — discovery does not restrict itself to
subfolders. -/
theorem C6_counterexample :
    all_contribs [⟨"notes.txt", false⟩] = [("notes.txt", "contrib/notes.txt")] ∧
    (DirEntry.mk "notes.txt" false).isDir = false := by
  constructor
  · rfl
  · rfl

/-- C6 amended: contribution discovery enumerates exactly the immediate
entries of the fixed contributions root, whether they are subfolders or
plain files — every listed entry becomes a contribution to validate. -/
theorem C6_discovery_all_entries (entries : List DirEntry) :
    all_contribs entries =
      entries.map (fun e => (e.name, CONTRIB_FOLDER ++ "/" ++ e.name)) := by
  simp only [all_contribs, get_folder_content]
  induction entries with
  | nil => rfl
  | cons e t ih => simp_all

/-- C7: with more than one command-line argument whose last value is
neither `pre` nor `post`, the `pre_build` fixture raises the
configuration error and the run produces no per-contribution result;
with `pre` or `post` (or no extra argument at all) no error is raised and
the matching mode is selected (`true` = pre-packaging). -/
theorem C7_mode_selection (argv : List String) (contribs : List ContribInput) :
    (argv.length > 1 → argv.getLastD "" ≠ "pre" → argv.getLastD "" ≠ "post" →
      runValidator argv contribs = .error ()) ∧
    (argv.length > 1 → argv.getLastD "" = "pre" → pre_build argv = .ok true) ∧
    (argv.length > 1 → argv.getLastD "" = "post" → pre_build argv = .ok false) ∧
    (¬ argv.length > 1 → pre_build argv = .ok true) := by
  refine ⟨?_, ?_, ?_, ?_⟩
  · intro hlen hpre hpost
    rw [List.getLastD_eq_getLast?] at hpre hpost
    simp [runValidator, pre_build, hlen, hpre, hpost]
  · intro hlen hpre
    rw [List.getLastD_eq_getLast?] at hpre
    simp [pre_build, hlen, hpre]
  · intro hlen hpost
    rw [List.getLastD_eq_getLast?] at hpost
    simp [pre_build, hlen, hpost]
  · intro hlen
    simp [pre_build, hlen]

/-- Witness for C7: a stray argument aborts the run with the
configuration error before any contribution's test body runs. -/
theorem C7_mode_selection_witness :
    runValidator ["validate.py", "somethingelse"] [failImportContrib] = .error () :=
  (C7_mode_selection ["validate.py", "somethingelse"] [failImportContrib]).1
    (by decide) (by decide) (by decide)

/-- C8 counterexample: in pre-packaging mode the resolution path is
mutated once per contribution reaching the load step, not once per run —
a run over two such contributions performs two insertions, not one. -/
theorem C8_counterexample :
    totalInserts (runValidator ["validate.py"]
      [failImportContrib, failImportContrib]) = 2 ∧ (2 : Nat) ≠ 1 := by
  constructor
  · rfl
  · decide

/-- C8 amended: in pre-packaging mode `sys.path.insert` runs exactly once
per contribution whose folder checks (1-2) pass — so `k` such
contributions give `k` insertions, not one per run — and in
post-packaging mode it never runs.  The model has no operation removing
path entries, matching "never rolled back within the run". -/
theorem C8_inserts_per_contribution (argv : List String)
    (contribs : List ContribInput) :
    (pre_build argv = .ok true →
      totalInserts (runValidator argv contribs) =
        (contribs.filter (fun c => step1 c && step2 c)).length) ∧
    (pre_build argv = .ok false →
      totalInserts (runValidator argv contribs) = 0) := by
  have hsumPre : ∀ (t : List ContribInput),
      ((t.map (test_contrib true)).map (fun r => r.pathInserts)).sum =
        (t.filter (fun c => step1 c && step2 c)).length := by
    intro t
    induction t with
    | nil => rfl
    | cons c u ih =>
      simp only [List.map_cons, List.sum_cons, ih, test_contrib_pathInserts,
        List.filter_cons]
      by_cases hc : (step1 c && step2 c) = true
      · simp [hc, Nat.add_comm]
      · simp [hc]
  have hsumPost : ∀ (t : List ContribInput),
      ((t.map (test_contrib false)).map (fun r => r.pathInserts)).sum = 0 := by
    intro t
    induction t with
    | nil => rfl
    | cons c u ih =>
      simp only [List.map_cons, List.sum_cons, ih, test_contrib_pathInserts]
      by_cases hc : (step1 c && step2 c) = true
      · simp [hc]
      · simp [hc]
  constructor <;> intro h <;> simp only [runValidator, h, totalInserts]
  · exact hsumPre contribs
  · exact hsumPost contribs

/-- Witness for C8 amended: one loadable contribution in pre mode gives
exactly one insertion. -/
theorem C8_inserts_witness :
    totalInserts (runValidator ["validate.py"] [failImportContrib]) = 1 :=
  ((C8_inserts_per_contribution ["validate.py"] [failImportContrib]).1
    rfl).trans (by decide)

end Espresso
